import Mathlib

/-!
Verification of the portfolio single-page application (src/App.jsx).

The program is a single React component holding two pieces of state
(`currentView`, `selectedProject`), a static two-entry project registry,
and three presentational renderers (`ProjectCard`, `ProjectDetail`,
`HomePage`) composed by a top-level conditional render.

The shallow embedding below translates the source directly:
  * markup is the `Node` tree (tag + children); class-name and href
    attributes are styling/link metadata with no behavioral contract and
    carry no content, so they are not part of the tree;
  * a render that dereferences a possibly-`undefined` record returns
    `Except String Node`: with `undefined` (`none`) the first member access
    throws a `TypeError` (`Except.error jsTypeError`), exactly as
    `project.title` does in JS;
  * JavaScript truthiness of the nullable string `selectedProject`
    (`null` and `""` are falsy) is `truthy`;
  * the two `useState` cells form `State`; the two click handlers are
    `selectProject` and `goHome`.
-/

/-- Rendered markup: a text node or an element with a tag and children.
JSX components/icons appear as elements named after the component. -/
inductive Node where
  | text : String → Node
  | elem : String → List Node → Node
deriving Repr

/-- The strings of the direct text children of an element. -/
def childTexts : List Node → List String
  | [] => []
  | Node.text s :: rest => s :: childTexts rest
  | Node.elem _ _ :: rest => childTexts rest

mutual

/-- All direct-child text of every element with the given tag, in document
order (the render-testing notion of reading out all headings of a level). -/
def textsOfTag (tag : String) : Node → List String
  | Node.text _ => []
  | Node.elem t cs => (if t = tag then childTexts cs else []) ++ textsOfTagL tag cs

/-- `textsOfTag` over a list of sibling nodes. -/
def textsOfTagL (tag : String) : List Node → List String
  | [] => []
  | c :: cs => textsOfTag tag c ++ textsOfTagL tag cs

end

/-- One entry of a project record's `decisions` array (App.jsx lines 21-37, 66-87). -/
structure Decision where
  choice : String
  reasoning : String
  tradeoff : String
deriving Repr, DecidableEq

/-- The shape of a registry entry (App.jsx lines 9-99). -/
structure ProjectRecord where
  title : String
  status : String
  tagline : String
  problem : String
  architecture : List String
  decisions : List Decision
  failures : List String
  next : List String
deriving Repr, DecidableEq

/-- The JS error raised by reading a property of `undefined`. -/
def jsTypeError : String := "TypeError: cannot read properties of undefined"

/-- `projects.ecommerce` (App.jsx lines 9-50), transcribed verbatim
(apostrophes as `'`; the source file's mojibake bytes on the third
decision of the blogging record are kept as-is there). -/
def ecommerce : ProjectRecord :=
  { title := "E-Commerce System"
  , status := "In Progress"
  , tagline := "A system built to study real failure scenarios"
  , problem := "Most e-commerce tutorials skip the hard parts: what happens when payment providers timeout, inventory gets oversold, or orders get stuck in limbo. I built this to understand how real systems handle these edge cases."
  , architecture :=
      [ "Order service manages state transitions through a finite state machine"
      , "Inventory service handles reservations with TTL and deduction logic"
      , "Payment service integrates with external providers, handling success/failure/timeout states"
      , "Event-driven communication for async operations like notifications and auditing"
      , "PostgreSQL for transactional consistency where it matters, Redis for reservation locks" ]
  , decisions :=
      [ { choice := "Inventory reservation before payment"
        , reasoning := "Reserve items with a 10-minute TTL. Release on timeout or payment failure. Prevents overselling without holding stock indefinitely."
        , tradeoff := "Adds complexity. Alternative would be optimistic deduction with compensation, but that creates worse UX when stock runs out during checkout." }
      , { choice := "Idempotency keys on order creation"
        , reasoning := "Network retries can cause duplicate orders. Idempotency keys ensure the same request produces the same result."
        , tradeoff := "Requires key storage and expiration logic. Worth it to prevent double-charging customers." }
      , { choice := "Async event processing for non-critical paths"
        , reasoning := "Confirmation emails and analytics don't need to block order completion. Queue them for async processing."
        , tradeoff := "Eventual consistency. Users might complete checkout before receiving email. Acceptable for this use case." } ]
  , failures :=
      [ "Payment provider timeout: order stays in pending state. Built a background job to poll provider status and reconcile."
      , "Inventory reservation expires during slow checkout: user sees \"item no longer available\" after payment. Added pre-payment validation step."
      , "Concurrent requests to same inventory: race condition on stock count. Implemented pessimistic locking for inventory reads during reservation."
      , "Event processing failure: lost notification events. Added dead letter queue and monitoring." ]
  , next :=
      [ "Simulate partial outages: database connection pool exhaustion, service degradation"
      , "Implement saga pattern for distributed transactions across order/payment/inventory"
      , "Add OpenTelemetry tracing to visualize request flow through services"
      , "Load test with k6 to identify bottlenecks" ] }

/-- `projects.blogging` (App.jsx lines 51-99), transcribed verbatim. -/
def blogging : ProjectRecord :=
  { title := "Microservices Blogging Platform"
  , status := "Completed"
  , tagline := "Built to understand microservices architecture beyond buzzwords"
  , problem := "Microservices are often presented as either a silver bullet or over-engineering. I built this to understand the actual complexity: service boundaries, data consistency, and when the cost is worth it."
  , architecture :=
      [ "API Gateway handles routing, rate limiting, and request validation"
      , "Auth Service manages users, sessions, JWT tokens"
      , "Content Service handles posts, comments, drafts"
      , "Notification Service processes email/push notifications asynchronously"
      , "Each service has its own PostgreSQL database (no shared schema)"
      , "Redis for session storage and content caching"
      , "RabbitMQ for async messaging between services"
      , "S3 for media uploads with pre-signed URLs" ]
  , decisions :=
      [ { choice := "Database per service"
        , reasoning := "Each service owns its data. Changes to one schema don't cascade. Services can scale independently."
        , tradeoff := "No foreign keys across services. Joins become API calls. Eventual consistency on reads. Had to implement distributed data patterns." }
      , { choice := "Redis cache with TTL"
        , reasoning := "Popular posts get hammered. Cache responses for 60 seconds to reduce database load."
        , tradeoff := "Stale reads. Cache invalidation on updates is hard. Implemented cache-aside pattern with write-through on critical paths." }
      , { choice := "Async notifications via message queue"
        , reasoning := "Don't block content creation while sending emails. Notifications aren't critical path."
        , tradeoff := "User publishes post, notification arrives seconds later. Acceptable delay. Notifications can fail silentlyâ€”added retry logic and monitoring." }
      , { choice := "API Gateway as single entry point"
        , reasoning := "Centralized auth, rate limiting, routing. Services don't need to implement these concerns."
        , tradeoff := "Single point of failure. Adds latency. Worth it for simplified service logic and consistent security layer." } ]
  , failures :=
      [ "Cache stampede: popular post cache expires, 100 requests hit database simultaneously. Added probabilistic early expiration."
      , "Service-to-service coupling: content service called notification service directly. Changed to event-driven to decouple."
      , "Distributed transaction complexity: user publishes post, notification fails. Post is live but users aren't notified. Acceptable for this system, but learned about saga patterns."
      , "S3 upload timeout: large images failed silently. Implemented client-side compression and progress tracking." ]
  , next :=
      [ "Was this worth the complexity? For a blogging platform, probably not. Learned the cost of microservices firsthand."
      , "Would use this pattern again for: domains with truly independent lifecycles, teams that need autonomous deployment, services that scale differently."
      , "Would not use for: CRUD apps, small teams, startups finding product-market fit." ] }

/-- The project registry: JS object property lookup `projects[id]`, which is
`undefined` (`none`) for a key that is not present (App.jsx lines 8-100). -/
def projects (id : String) : Option ProjectRecord :=
  if id = "ecommerce" then some ecommerce
  else if id = "blogging" then some blogging
  else none

/-- The two `useState` cells of the Portfolio component (App.jsx lines 5-6). -/
structure State where
  currentView : String
  selectedProject : Option String
deriving Repr, DecidableEq

/-- `useState('home')`, `useState(null)` (App.jsx lines 5-6). -/
def initState : State := { currentView := "home", selectedProject := none }

/-- The ProjectCard click handler (App.jsx lines 104-107):
`setSelectedProject(projectKey); setCurrentView('project')`. -/
def selectProject (id : String) (s : State) : State :=
  { s with selectedProject := some id, currentView := "project" }

/-- The back-button click handler (App.jsx line 127): `setCurrentView('home')`.
It does not touch `selectedProject`. -/
def goHome (s : State) : State :=
  { s with currentView := "home" }

/-- JS truthiness of the nullable string `selectedProject`:
`null` and the empty string are falsy. -/
def truthy : Option String → Bool
  | none => false
  | some s => !(s == "")

/-- The registry lookup `projects[selectedProject]` as it occurs in the
guarded render (App.jsx line 252), performed only when `selectedProject`
is a string. -/
def lookupSelected : Option String → Option ProjectRecord
  | some id => projects id
  | none => none

set_option linter.unusedVariables false in
/-- The ProjectCard markup (App.jsx lines 102-122): title and status in a
header row, then the tagline. The `projectKey` prop is consumed only by the
click handler (modelled by `selectProject` in the step relation below). -/
def renderProjectCard (projectKey : String) (project : ProjectRecord) : Node :=
  Node.elem "div"
    [ Node.elem "div"
        [ Node.elem "h3" [Node.text project.title]
        , Node.elem "span" [Node.text project.status] ]
    , Node.elem "p" [Node.text project.tagline] ]

/-- One Key-Decisions block (App.jsx lines 158-166): choice, reasoning,
then the trade-off line. -/
def renderDecision (decision : Decision) : Node :=
  Node.elem "div"
    [ Node.elem "h3" [Node.text decision.choice]
    , Node.elem "p" [Node.text decision.reasoning]
    , Node.elem "p" [Node.text "Trade-off: ", Node.text decision.tradeoff] ]

/-- The ProjectDetail markup (App.jsx lines 124-194). The `project` prop can
be `undefined` (the unchecked lookup `projects[selectedProject]`): its body
dereferences `project` unconditionally, so with `undefined` the very first
field access `project.title` (line 135) throws a `TypeError` and the render
fails instead of producing markup. `selectedProject` is the state cell read
by the final section's heading ternary (line 183). -/
def renderProjectDetail (project : Option ProjectRecord) (selectedProject : Option String) :
    Except String Node :=
  match project with
  | none => Except.error jsTypeError
  | some p =>
    Except.ok (Node.elem "div"
      [ Node.elem "button" [Node.elem "ArrowLeft" [], Node.elem "span" [Node.text "Back"]]
      , Node.elem "div"
          [ Node.elem "h1" [Node.text p.title]
          , Node.elem "p" [Node.text p.status] ]
      , Node.elem "section"
          [ Node.elem "h2" [Node.text "Problem"]
          , Node.elem "p" [Node.text p.problem] ]
      , Node.elem "section"
          [ Node.elem "h2" [Node.text "Architecture"]
          , Node.elem "div" (p.architecture.map (fun item => Node.elem "p" [Node.text item])) ]
      , Node.elem "section"
          [ Node.elem "h2" [Node.text "Key Decisions"]
          , Node.elem "div" (p.decisions.map renderDecision) ]
      , Node.elem "section"
          [ Node.elem "h2" [Node.text "Failure Modes"]
          , Node.elem "div" (p.failures.map (fun failure => Node.elem "p" [Node.text failure])) ]
      , Node.elem "section"
          [ Node.elem "h2"
              [ Node.text
                  (if selectedProject = some "ecommerce" then "What's Next"
                   else "Lessons Learned") ]
          , Node.elem "div" (p.next.map (fun item => Node.elem "p" [Node.text item])) ] ])

/-- The HomePage markup (App.jsx lines 196-245), a fragment of four sections:
hero, featured projects (one card per registry entry, in registry order),
about, contact. -/
def renderHomePage : List Node :=
  [ Node.elem "section"
      [ Node.elem "h1" [Node.text "Creativity doesn't ask for permission."]
      , Node.elem "p"
          [Node.text "From every era, someone chooses to build differently. I'm choosing to be one of them."]
      , Node.elem "div" [Node.text "Your headshot here"] ]
  , Node.elem "section"
      [ Node.elem "h2" [Node.text "Featured Projects"]
      , Node.elem "div"
          [ renderProjectCard "ecommerce" ecommerce
          , renderProjectCard "blogging" blogging ] ]
  , Node.elem "section"
      [ Node.elem "h2" [Node.text "About"]
      , Node.elem "p"
          [Node.text "I'm a backend engineer focused on understanding how real systems behave under pressure. I build projects to explore architecture trade-offs, failure modes, and the decisions tutorials don't teach. Each system is a study in what breaks first and why."] ]
  , Node.elem "section"
      [ Node.elem "h2" [Node.text "Contact"]
      , Node.elem "div"
          [ Node.elem "a" [Node.elem "Linkedin" [], Node.elem "span" [Node.text "LinkedIn"]]
          , Node.elem "a" [Node.elem "Github" [], Node.elem "span" [Node.text "GitHub"]]
          , Node.elem "a" [Node.elem "Mail" [], Node.elem "span" [Node.text "Email"]] ] ] ]

/-- The two wrapper divs of the page (App.jsx lines 248-249). -/
def pageShell (content : List Node) : Node :=
  Node.elem "div" [Node.elem "div" content]

/-- The top-level render (App.jsx lines 247-256):
`{currentView === 'home' && <HomePage />}` followed by
`{currentView === 'project' && selectedProject && <ProjectDetail ... />}`.
The registry lookup happens only under the truthiness guard; a throw inside
ProjectDetail propagates as a failed render. -/
def renderApp (s : State) : Except String Node :=
  let homePart : List Node := if s.currentView = "home" then renderHomePage else []
  if s.currentView = "project" ∧ truthy s.selectedProject = true then
    (renderProjectDetail (lookupSelected s.selectedProject) s.selectedProject).map
      (fun detail => pageShell (homePart ++ [detail]))
  else
    Except.ok (pageShell (homePart ++ []))

/-- The project keys wired to card click handlers on the home page
(App.jsx lines 213-214): the only arguments `selectProject` is ever
invoked with by the UI. -/
def cardKeys : List String := ["ecommerce", "blogging"]

/-- States reachable from the initial state by user gestures: clicking a
project card (which fires `selectProject` with that card's key) or the
back button (`goHome`). -/
inductive Reachable : State → Prop where
  | init : Reachable initState
  | clickCard {s : State} {k : String} (hs : Reachable s) (hk : k ∈ cardKeys) :
      Reachable (selectProject k s)
  | clickBack {s : State} (hs : Reachable s) : Reachable (goHome s)

/-- A mapped list of nodes none of which contributes text for the tag
contributes nothing. -/
theorem textsOfTagL_map_nil {α : Type} (tag : String) (f : α → Node) (l : List α)
    (h : ∀ x, textsOfTag tag (f x) = []) : textsOfTagL tag (l.map f) = [] := by
  induction l with
  | nil => rfl
  | cons a as ih => simp [textsOfTagL, h a, ih]

/-- Claim C4: a fresh session starts at the home view; its render is exactly
the page shell around the HomePage fragment, whose project-card titles (the
h3 headings) are, in registry order, "E-Commerce System" then
"Microservices Blogging Platform" - and those are the registry titles. -/
theorem initial_home_two_cards :
    initState.currentView = "home" ∧
    renderApp initState = Except.ok (pageShell renderHomePage) ∧
    (renderApp initState).map (textsOfTag "h3") =
      Except.ok ["E-Commerce System", "Microservices Blogging Platform"] ∧
    (projects "ecommerce").map ProjectRecord.title = some "E-Commerce System" ∧
    (projects "blogging").map ProjectRecord.title = some "Microservices Blogging Platform" :=
  ⟨rfl, rfl, rfl, rfl, rfl⟩

/-- Claim C1: for every key of the registry, selectProject(id) yields
currentView = 'project' and selectedProject = id, and the page rendered from
that state has detail header (h1) title equal to the registry record's title. -/
theorem selectProject_shows_detail (s : State) (id : String) (p : ProjectRecord)
    (h : projects id = some p) :
    (selectProject id s).currentView = "project" ∧
    (selectProject id s).selectedProject = some id ∧
    (renderApp (selectProject id s)).map (textsOfTag "h1") = Except.ok [p.title] := by
  by_cases h1 : id = "ecommerce"
  · subst h1
    have hp : p = ecommerce := by
      have hh := h
      simp [projects] at hh
      exact hh.symm
    subst hp
    exact ⟨rfl, rfl, rfl⟩
  · by_cases h2 : id = "blogging"
    · subst h2
      have hp : p = blogging := by
        have hh := h
        simp [projects] at hh
        exact hh.symm
      subst hp
      exact ⟨rfl, rfl, rfl⟩
    · exact absurd h (by simp [projects, h1, h2])

/-- Claim C1 witness: selecting "ecommerce" from the initial state. -/
theorem selectProject_shows_detail_witness :
    (selectProject "ecommerce" initState).currentView = "project" ∧
    (selectProject "ecommerce" initState).selectedProject = some "ecommerce" ∧
    (renderApp (selectProject "ecommerce" initState)).map (textsOfTag "h1") =
      Except.ok [ecommerce.title] :=
  selectProject_shows_detail initState "ecommerce" ecommerce rfl

/-- Claim C2: in every state reachable from the initial state by the UI's
card clicks (selectProject) and back clicks (goHome), whenever
currentView = 'project' the stored selectedProject is a key the registry
resolves. -/
theorem reachable_selection_valid (s : State) (hr : Reachable s)
    (hv : s.currentView = "project") :
    (lookupSelected s.selectedProject).isSome = true := by
  induction hr with
  | init => exact absurd hv (by decide)
  | clickCard hs hk ih =>
      simp only [cardKeys, List.mem_cons, List.not_mem_nil, or_false] at hk
      rcases hk with rfl | rfl
      · rfl
      · rfl
  | clickBack hs ih => simp [goHome] at hv

/-- Claim C2 witness: the reachable state after clicking the ecommerce card. -/
theorem reachable_selection_valid_witness :
    (lookupSelected (selectProject "ecommerce" initState).selectedProject).isSome = true :=
  reachable_selection_valid (selectProject "ecommerce" initState)
    (Reachable.clickCard Reachable.init (by decide)) rfl

/-- Claim C3 counterexample: selecting the unregistered id "missing" does
not silently render a degraded detail page - the top-level render fails
with the TypeError thrown by reading a field of the undefined record. -/
theorem invalid_select_errors_cex :
    renderApp (selectProject "missing" initState) = Except.error jsTypeError :=
  rfl

/-- Claim C3 (amended): for every nonempty identifier that is not a registry
key, selectProject(id) yields a state whose render throws a TypeError on the
first field access of the undefined record, so no detail page (degraded or
otherwise) is produced. -/
theorem invalid_select_errors (s : State) (id : String)
    (hmiss : projects id = none) (hne : id ≠ "") :
    renderApp (selectProject id s) = Except.error jsTypeError := by
  simp [renderApp, selectProject, truthy, hne, lookupSelected, hmiss,
    renderProjectDetail, Except.map]

/-- Claim C3 witness (amended claim): the unregistered id "missing". -/
theorem invalid_select_errors_witness :
    renderApp (selectProject "missing" initState) = Except.error jsTypeError :=
  invalid_select_errors initState "missing" rfl (by decide)

/-- Claim C5: selecting any valid key and going home lands on
currentView = 'home' and the rendered page is structurally identical to the
initial render; the registry (a static constant never written by either
operation) resolves every key exactly as before. -/
theorem select_then_home_roundtrip (s : State) (id : String) (p : ProjectRecord)
    (_h : projects id = some p) :
    (goHome (selectProject id s)).currentView = "home" ∧
    renderApp (goHome (selectProject id s)) = renderApp initState :=
  ⟨rfl, rfl⟩

/-- Claim C5 witness: the round trip through "ecommerce". -/
theorem select_then_home_roundtrip_witness :
    (goHome (selectProject "ecommerce" initState)).currentView = "home" ∧
    renderApp (goHome (selectProject "ecommerce" initState)) = renderApp initState :=
  select_then_home_roundtrip initState "ecommerce" ecommerce rfl

/-- Claim C6: the final section heading of the rendered detail page is
"What's Next" exactly for 'ecommerce' (the registry's in-progress project)
and "Lessons Learned" for 'blogging' (the completed one). -/
theorem final_section_heading :
    ecommerce.status = "In Progress" ∧
    blogging.status = "Completed" ∧
    (renderApp (selectProject "ecommerce" initState)).map
        (fun n => (textsOfTag "h2" n).getLast?) = Except.ok (some "What's Next") ∧
    (renderApp (selectProject "blogging" initState)).map
        (fun n => (textsOfTag "h2" n).getLast?) = Except.ok (some "Lessons Learned") :=
  ⟨rfl, rfl, rfl, rfl⟩

/-- Claim C7: goHome sets currentView to 'home' and leaves selectedProject
unchanged, so after selecting a project and going home the key is still
stored. -/
theorem goHome_keeps_selection (s : State) (id : String) :
    (goHome s).currentView = "home" ∧
    (goHome s).selectedProject = s.selectedProject ∧
    (goHome (selectProject id s)).selectedProject = some id :=
  ⟨rfl, rfl, rfl⟩

/-- Claim C8: for every project record and any active selection, the detail
view's section headings (h2), in document order, are exactly Problem,
Architecture, Key Decisions, Failure Modes, then the final label -
independent of the record's field contents. -/
theorem detail_sections_fixed_order (p : ProjectRecord) (sel : Option String) :
    (renderProjectDetail (some p) sel).map (textsOfTag "h2") =
      Except.ok ["Problem", "Architecture", "Key Decisions", "Failure Modes",
        if sel = some "ecommerce" then "What's Next" else "Lessons Learned"] := by
  have harch : textsOfTagL "h2"
      (p.architecture.map (fun item => Node.elem "p" [Node.text item])) = [] :=
    textsOfTagL_map_nil _ _ _ (fun _ => rfl)
  have hdec : textsOfTagL "h2" (p.decisions.map renderDecision) = [] :=
    textsOfTagL_map_nil _ _ _ (fun _ => rfl)
  have hfail : textsOfTagL "h2"
      (p.failures.map (fun failure => Node.elem "p" [Node.text failure])) = [] :=
    textsOfTagL_map_nil _ _ _ (fun _ => rfl)
  have hnext : textsOfTagL "h2"
      (p.next.map (fun item => Node.elem "p" [Node.text item])) = [] :=
    textsOfTagL_map_nil _ _ _ (fun _ => rfl)
  simp [renderProjectDetail, Except.map, textsOfTag, textsOfTagL, childTexts,
    harch, hdec, hfail, hnext]

/-- Claim C9: goHome is idempotent - calling it twice from any state is the
same state as calling it once (and, being a total function, raises nothing). -/
theorem goHome_idempotent (s : State) : goHome (goHome s) = goHome s :=
  rfl

/-- Claim C10: with currentView = 'project' and selectedProject = null, the
render is total and safe: the truthiness guard short-circuits before any
registry lookup, so neither HomePage nor ProjectDetail is rendered and the
result is just the empty page shell. -/
theorem render_project_null_selection :
    renderApp { currentView := "project", selectedProject := none } =
      Except.ok (pageShell []) :=
  rfl
